import Mathlib

/-!
Shallow embedding of `src/pykv/static/js/app.js`, the browser-side
orchestration layer of the pykv dashboard.  Each `async function` of the
source is modelled as a pure function from the relevant DOM state and the
outcome of its single `fetch` call to the ordered list of observable
effects it performs, together with a flag telling whether the function ran
to completion (`true`) or aborted on an uncaught exception (`false`):
a rejected `fetch` (network failure), a rejected `res.json()` (unparsable
body), or a property access on a missing element all abort the handler.
-/

namespace PyKV

/-- JSON values, as serialized into request bodies by `JSON.stringify` and
as produced from response bodies by `res.json()`. -/
inductive Json where
  | null
  | str (s : String)
  | num (n : Int)
  | bool (b : Bool)
  | arr (xs : List Json)
  | obj (fields : List (String × Json))

/-- Quote a string as a JSON string literal (the escapes `JSON.stringify`
emits for quote, backslash and common control characters). -/
def jsQuote (s : String) : String :=
  "\"" ++ String.join (s.toList.map (fun c =>
    if c = '"' then "\\\""
    else if c = '\\' then "\\\\"
    else if c = '\n' then "\\n"
    else if c = '\t' then "\\t"
    else if c = '\r' then "\\r"
    else String.singleton c)) ++ "\""

/-- `n` spaces, the indentation unit of `JSON.stringify(v, null, 2)`. -/
def padSpaces (n : Nat) : String :=
  String.mk (List.replicate n ' ')

mutual

/-- `JSON.stringify(v, null, 2)` at indentation level `i`. -/
def jsStringifyAt : Nat → Json → String
  | _, .null => "null"
  | _, .str s => jsQuote s
  | _, .num n => toString n
  | _, .bool b => if b then "true" else "false"
  | _, .arr [] => "[]"
  | i, .arr (x :: xs) =>
      "[\n" ++ jsStringifyItems (i + 2) x xs ++ "\n" ++ padSpaces i ++ "]"
  | _, .obj [] => "\x7b\x7d"
  | i, .obj (f :: fs) =>
      "\x7b\n" ++ jsStringifyFields (i + 2) f fs ++ "\n" ++ padSpaces i ++ "\x7d"
termination_by i j => sizeOf j

/-- Comma-and-newline separated array items at indentation `i`. -/
def jsStringifyItems : Nat → Json → List Json → String
  | i, x, [] => padSpaces i ++ jsStringifyAt i x
  | i, x, y :: ys => padSpaces i ++ jsStringifyAt i x ++ ",\n" ++ jsStringifyItems i y ys
termination_by i x xs => sizeOf x + sizeOf xs

/-- Comma-and-newline separated object fields at indentation `i`. -/
def jsStringifyFields : Nat → String × Json → List (String × Json) → String
  | i, (k, v), [] => padSpaces i ++ jsQuote k ++ ": " ++ jsStringifyAt i v
  | i, (k, v), f :: fs =>
      padSpaces i ++ jsQuote k ++ ": " ++ jsStringifyAt i v ++ ",\n" ++ jsStringifyFields i f fs
termination_by i f fs => sizeOf f + sizeOf fs

end

/-- Top-level `JSON.stringify(v, null, 2)`. -/
def jsStringifyPretty (j : Json) : String :=
  jsStringifyAt 0 j

/-- Value of a decimal digit, `none` for non-digits. -/
def decDigitVal (c : Char) : Option Nat :=
  if '0' ≤ c ∧ c ≤ '9' then some (c.toNat - 48) else none

/-- Value of a hexadecimal digit, `none` for non-digits. -/
def hexDigitVal (c : Char) : Option Nat :=
  if '0' ≤ c ∧ c ≤ '9' then some (c.toNat - 48)
  else if 'a' ≤ c ∧ c ≤ 'f' then some (c.toNat - 87)
  else if 'A' ≤ c ∧ c ≤ 'F' then some (c.toNat - 55)
  else none

/-- Fold the remaining digit prefix onto an accumulator. -/
def takeDigitsAux (digVal : Char → Option Nat) (base : Nat) (acc : Nat) : List Char → Nat
  | [] => acc
  | c :: cs =>
    match digVal c with
    | none => acc
    | some d => takeDigitsAux digVal base (acc * base + d) cs

/-- Accumulate the longest prefix of digits (in the given base, read through
`digVal`) into a number; `none` when the prefix is empty. -/
def takeDigits (digVal : Char → Option Nat) (base : Nat) : List Char → Option Nat
  | [] => none
  | c :: cs =>
    match digVal c with
    | none => none
    | some d => some (takeDigitsAux digVal base d cs)

/-- JavaScript `parseInt(s)` (radix argument omitted): skip leading
whitespace, read an optional sign, detect a `0x`/`0X` hexadecimal prefix,
then take the longest digit prefix; `none` models the `NaN` result.
(Number precision beyond 2^53 is idealized as exact integers.) -/
def jsParseInt (s : String) : Option Int :=
  let cs := s.toList.dropWhile (fun c => c.isWhitespace)
  let (sign, cs₁) : Int × List Char :=
    match cs with
    | '-' :: rest => (-1, rest)
    | '+' :: rest => (1, rest)
    | _ => (1, cs)
  match cs₁ with
  | '0' :: x :: rest =>
    if x = 'x' ∨ x = 'X' then
      (takeDigits hexDigitVal 16 rest).map (fun n => sign * n)
    else
      (takeDigits decDigitVal 10 cs₁).map (fun n => sign * n)
  | _ => (takeDigits decDigitVal 10 cs₁).map (fun n => sign * n)

/-- The JavaScript value held by the `ttl` variable of `setKey`: `null`
when the raw field is empty, otherwise the `parseInt` result, which may be
`NaN`. -/
inductive JsTtl where
  | null
  | nan
  | num (n : Int)

/-- How `JSON.stringify` serializes the `ttl` value: `NaN` (like `null`)
serializes as JSON `null`. -/
def JsTtl.toJson : JsTtl → Json
  | .null => Json.null
  | .nan => Json.null
  | .num n => Json.num n

/-- `ttlRaw ? parseInt(ttlRaw) : null` — the empty string is the only
falsy string. -/
def computeTtl (ttlRaw : String) : JsTtl :=
  if ttlRaw = "" then JsTtl.null
  else
    match jsParseInt ttlRaw with
    | some n => JsTtl.num n
    | none => JsTtl.nan

/-- JavaScript `s.trim()`: strip whitespace from both ends. -/
def jsTrim (s : String) : String :=
  String.mk
    (((s.toList.dropWhile Char.isWhitespace).reverse.dropWhile Char.isWhitespace).reverse)

/-- JavaScript `x || dflt` for a possibly-undefined string `x`: both
`undefined` and the empty string are falsy. -/
def jsOr (x : Option String) (dflt : String) : String :=
  match x with
  | some s => if s = "" then dflt else s
  | none => dflt

/-- JavaScript string concatenation with a possibly-undefined value:
`undefined` prints as `"undefined"`. -/
def jsStr (x : Option String) : String :=
  match x with
  | some s => s
  | none => "undefined"

/-- The DOM state the handlers read: presence flags for the elements that
may legitimately be absent on a page, and the current text of the input
fields (input elements are assumed present, as on the dashboard page). -/
structure Dom where
  statusBox : Bool
  keysList : Bool
  getResult : Bool
  statsBox : Bool
  keyField : String
  valueField : String
  ttlField : String
  getKeyField : String
  delKeyField : String

/-- An HTTP response as the handlers see it: the transport-level success
indicator `res.ok`, and the body as read by `await res.json()` — `none`
when the body is not parsable JSON, in which case `res.json()` rejects. -/
structure Response (α : Type) where
  ok : Bool
  body : Option α

/-- Outcome of `await fetch(...)`: either the promise rejects (network
failure) or a response arrives. -/
inductive FetchOutcome (α : Type) where
  | netError
  | success (r : Response α)

/-- Parsed failure body of `/set` and `/delete` responses: the optional
`detail` field the client reads. -/
structure FailBody where
  detail : Option String

/-- Parsed body of a `/keys` response: the `keys` array and the `count`
field the client reads. -/
structure KeysBody where
  keys : List String
  count : Int

/-- Parsed body of `/clear` and `/compact` responses: the optional
`message` field the client reads. -/
structure MsgBody where
  message : Option String

/-- Observable effects, in program order. -/
inductive Event where
  | fetch (method : String) (path : String) (body : Option Json)
  | respond
  | parseBody
  | status (msg : String) (ok : Bool)
  | setResultText (txt : String)
  | clearListRender
  | renderKey (k : String)
  | setLookupField (k : String)
  | refreshKeys
  | refreshStats
  | setStatsText (txt : String)
  | alertMsg (msg : String)

/-- `showStatus(msg, ok)`: writes the status line when the status box
element exists, otherwise a silent no-op. -/
def showStatus (d : Dom) (msg : String) (ok : Bool) : List Event :=
  if d.statusBox then [Event.status msg ok] else []

/-- `setKey()`: trims the three input fields, computes `ttl`, POSTs the
serialized body to `/set`; on `res.ok` reports success and triggers a key
list refresh, otherwise parses the body and reports `detail || "Error"`. -/
def setKey (d : Dom) (out : FetchOutcome FailBody) : List Event × Bool :=
  let key := jsTrim d.keyField
  let value := jsTrim d.valueField
  let ttlRaw := jsTrim d.ttlField
  let ttl := computeTtl ttlRaw
  let req := Event.fetch "POST" "/set"
    (some (Json.obj [("key", Json.str key), ("value", Json.str value), ("ttl", ttl.toJson)]))
  match out with
  | .netError => ([req], false)
  | .success r =>
    if r.ok then
      ([req, Event.respond] ++ showStatus d "✅ Key saved successfully" true
        ++ [Event.refreshKeys], true)
    else
      match r.body with
      | none => ([req, Event.respond, Event.parseBody], false)
      | some data =>
        ([req, Event.respond, Event.parseBody]
          ++ showStatus d ("❌ " ++ jsOr data.detail "Error") false, true)

/-- `getKey()`: GETs `/get/{key}` for the trimmed lookup field, parses the
body unconditionally, then on `res.ok` renders the pretty-printed record,
otherwise renders and reports "Key not found"; writing the result throws
when the result element is absent. -/
def getKey (d : Dom) (out : FetchOutcome Json) : List Event × Bool :=
  let key := jsTrim d.getKeyField
  let req := Event.fetch "GET" ("/get/" ++ key) none
  match out with
  | .netError => ([req], false)
  | .success r =>
    match r.body with
    | none => ([req, Event.respond, Event.parseBody], false)
    | some data =>
      if r.ok then
        if d.getResult then
          ([req, Event.respond, Event.parseBody,
            Event.setResultText (jsStringifyPretty data)]
            ++ showStatus d "✅ Key fetched successfully" true, true)
        else ([req, Event.respond, Event.parseBody], false)
      else
        if d.getResult then
          ([req, Event.respond, Event.parseBody, Event.setResultText "Key not found"]
            ++ showStatus d "❌ Key not found" false, true)
        else ([req, Event.respond, Event.parseBody], false)

/-- `deleteKey()`: DELETEs `/delete/{key}` for the trimmed field, parses
the body unconditionally, then on `res.ok` reports the deletion and
triggers a key list refresh, otherwise reports `detail || "Error"`. -/
def deleteKey (d : Dom) (out : FetchOutcome FailBody) : List Event × Bool :=
  let key := jsTrim d.delKeyField
  let req := Event.fetch "DELETE" ("/delete/" ++ key) none
  match out with
  | .netError => ([req], false)
  | .success r =>
    match r.body with
    | none => ([req, Event.respond, Event.parseBody], false)
    | some data =>
      if r.ok then
        ([req, Event.respond, Event.parseBody]
          ++ showStatus d ("✅ Key deleted: " ++ key) true ++ [Event.refreshKeys], true)
      else
        ([req, Event.respond, Event.parseBody]
          ++ showStatus d ("❌ " ++ jsOr data.detail "Error") false, true)

/-- A rendered `<li>` of the key list: its visible text and the key value
captured by its click handler (always the same string in the source). -/
structure RenderedEntry where
  text : String
  clickKey : String

/-- `loadKeys()`: returns immediately when the list element is absent;
otherwise clears the rendering, GETs `/keys`, parses the body, renders one
entry per key in order, and reports the count.  Also returns the rendered
entries.  `res.ok` is never consulted. -/
def loadKeys (d : Dom) (out : FetchOutcome KeysBody) :
    List Event × List RenderedEntry × Bool :=
  if d.keysList then
    let req := Event.fetch "GET" "/keys" none
    match out with
    | .netError => ([Event.clearListRender, req], [], false)
    | .success r =>
      match r.body with
      | none => ([Event.clearListRender, req, Event.respond, Event.parseBody], [], false)
      | some data =>
        ([Event.clearListRender, req, Event.respond, Event.parseBody]
          ++ data.keys.map Event.renderKey
          ++ showStatus d ("✅ Keys loaded (" ++ toString data.count ++ ")") true,
         data.keys.map (fun k => ⟨k, k⟩), true)
  else ([], [], true)

/-- The click handler wired onto a rendered entry: set the lookup field to
the captured key, then run `getKey()` on the updated DOM. -/
def clickEntry (e : RenderedEntry) (d : Dom) (out : FetchOutcome Json) :
    Dom × List Event × Bool :=
  let d' := { d with getKeyField := e.clickKey }
  let g := getKey d' out
  (d', Event.setLookupField e.clickKey :: g.1, g.2)

/-- `clearAll()`: DELETEs `/clear`, parses the body unconditionally, then
on `res.ok` reports the server message, triggers a key list refresh and
blanks the lookup result (when that element exists); otherwise reports a
fixed clear-failure message. -/
def clearAll (d : Dom) (out : FetchOutcome MsgBody) : List Event × Bool :=
  let req := Event.fetch "DELETE" "/clear" none
  match out with
  | .netError => ([req], false)
  | .success r =>
    match r.body with
    | none => ([req, Event.respond, Event.parseBody], false)
    | some data =>
      if r.ok then
        ([req, Event.respond, Event.parseBody]
          ++ showStatus d ("✅ " ++ jsStr data.message) true
          ++ [Event.refreshKeys]
          ++ (if d.getResult then [Event.setResultText ""] else []), true)
      else
        ([req, Event.respond, Event.parseBody]
          ++ showStatus d "❌ Error clearing store" false, true)

/-- `loadStats()`: GETs `/stats`, parses the body unconditionally, renders
the pretty-printed snapshot; writing throws when the stats element is
absent. -/
def loadStats (d : Dom) (out : FetchOutcome Json) : List Event × Bool :=
  let req := Event.fetch "GET" "/stats" none
  match out with
  | .netError => ([req], false)
  | .success r =>
    match r.body with
    | none => ([req, Event.respond, Event.parseBody], false)
    | some data =>
      if d.statsBox then
        ([req, Event.respond, Event.parseBody,
          Event.setStatsText (jsStringifyPretty data)], true)
      else ([req, Event.respond, Event.parseBody], false)

/-- `compactWAL()`: POSTs `/compact`, parses the body unconditionally,
surfaces `message || "WAL compacted"` through a blocking `alert`, then
triggers a statistics refresh.  The status line is never written. -/
def compactWAL (out : FetchOutcome MsgBody) : List Event × Bool :=
  let req := Event.fetch "POST" "/compact" none
  match out with
  | .netError => ([req], false)
  | .success r =>
    match r.body with
    | none => ([req, Event.respond, Event.parseBody], false)
    | some data =>
      ([req, Event.respond, Event.parseBody,
        Event.alertMsg (jsOr data.message "WAL compacted"), Event.refreshStats], true)

/-! ### Sample DOM states used as concrete instances -/

/-- A dashboard page DOM: every display surface present. -/
def domDash : Dom :=
  { statusBox := true, keysList := true, getResult := true, statsBox := true
    keyField := "alpha", valueField := "1", ttlField := "", getKeyField := "alpha"
    delKeyField := "alpha" }

/-- A page without the key-list element. -/
def domNoList : Dom := { domDash with keysList := false }

/-- A DOM whose TTL field holds text with no leading integer. -/
def domTtlAbc : Dom := { domDash with ttlField := " abc " }

/-! ### Claims -/

/-- C4: for every invocation of `setKey` where the trimmed TTL input field is
the empty string, the serialized `/set` request body encodes the `ttl` field
as JSON `null` — never as the literal value `0`. -/
theorem setKey_empty_ttl_null (d : Dom) (out : FetchOutcome FailBody)
    (h : jsTrim d.ttlField = "") :
    (setKey d out).1.head? = some (Event.fetch "POST" "/set"
      (some (Json.obj [("key", Json.str (jsTrim d.keyField)),
        ("value", Json.str (jsTrim d.valueField)), ("ttl", Json.null)]))) ∧
    ∀ j : Json, Event.fetch "POST" "/set" (some j) ∈ (setKey d out).1 →
      j = Json.obj [("key", Json.str (jsTrim d.keyField)),
        ("value", Json.str (jsTrim d.valueField)), ("ttl", Json.null)] := by
  constructor
  · cases out with
    | netError => simp [setKey, computeTtl, h, JsTtl.toJson]
    | success r =>
      by_cases hok : r.ok
      · simp [setKey, computeTtl, h, JsTtl.toJson, hok]
      · cases hb : r.body <;> simp [setKey, computeTtl, h, JsTtl.toJson, hok, hb]
  · intro j hj
    cases out with
    | netError =>
      simp [setKey, computeTtl, h, JsTtl.toJson] at hj
      exact hj
    | success r =>
      cases r with
      | mk ok body =>
        cases ok <;> cases body <;>
          by_cases hsb : d.statusBox <;>
          simp [setKey, computeTtl, h, JsTtl.toJson, showStatus, hsb] at hj <;>
          exact hj

/-- C4 witness: the guarantee at a concrete DOM whose TTL field is empty. -/
theorem setKey_empty_ttl_null_w :
    (setKey domDash FetchOutcome.netError).1.head? = some (Event.fetch "POST" "/set"
      (some (Json.obj [("key", Json.str (jsTrim domDash.keyField)),
        ("value", Json.str (jsTrim domDash.valueField)), ("ttl", Json.null)]))) ∧
    ∀ j : Json,
      Event.fetch "POST" "/set" (some j) ∈ (setKey domDash FetchOutcome.netError).1 →
      j = Json.obj [("key", Json.str (jsTrim domDash.keyField)),
        ("value", Json.str (jsTrim domDash.valueField)), ("ttl", Json.null)] :=
  setKey_empty_ttl_null domDash FetchOutcome.netError (by decide)

/-- C9: when the key-list element is absent, `loadKeys` returns immediately:
no request, no rendering, no status write, normal completion. -/
theorem loadKeys_absent_list_inert (d : Dom) (out : FetchOutcome KeysBody)
    (h : d.keysList = false) : loadKeys d out = ([], [], true) := by
  simp [loadKeys, h]

/-- C9 witness: the no-op at a concrete DOM lacking the list element. -/
theorem loadKeys_absent_list_inert_w :
    loadKeys domNoList (FetchOutcome.success ⟨true, some ⟨["x"], 1⟩⟩) = ([], [], true) :=
  loadKeys_absent_list_inert domNoList _ (by decide)

/-- C10: for every invocation of `setKey` whose trimmed TTL input is
non-empty but yields `NaN` from `parseInt`, the internal `ttl` value is NaN
and the serialized request body still carries `ttl` as JSON `null` — the
server receives neither NaN nor the raw string. -/
theorem setKey_nan_ttl_null (d : Dom) (out : FetchOutcome FailBody)
    (h1 : jsTrim d.ttlField ≠ "") (h2 : jsParseInt (jsTrim d.ttlField) = none) :
    computeTtl (jsTrim d.ttlField) = JsTtl.nan ∧
    (setKey d out).1.head? = some (Event.fetch "POST" "/set"
      (some (Json.obj [("key", Json.str (jsTrim d.keyField)),
        ("value", Json.str (jsTrim d.valueField)), ("ttl", Json.null)]))) := by
  have hc : computeTtl (jsTrim d.ttlField) = JsTtl.nan := by
    simp [computeTtl, h1, h2]
  refine ⟨hc, ?_⟩
  cases out with
  | netError => simp [setKey, hc, JsTtl.toJson]
  | success r =>
    by_cases hok : r.ok
    · simp [setKey, hc, JsTtl.toJson, hok]
    · cases hb : r.body <;> simp [setKey, hc, JsTtl.toJson, hok, hb]

/-- C10 witness: the guarantee at a concrete DOM whose TTL field is " abc ". -/
theorem setKey_nan_ttl_null_w :
    computeTtl (jsTrim domTtlAbc.ttlField) = JsTtl.nan ∧
    (setKey domTtlAbc FetchOutcome.netError).1.head? = some (Event.fetch "POST" "/set"
      (some (Json.obj [("key", Json.str (jsTrim domTtlAbc.keyField)),
        ("value", Json.str (jsTrim domTtlAbc.valueField)), ("ttl", Json.null)]))) :=
  setKey_nan_ttl_null domTtlAbc FetchOutcome.netError (by decide) (by decide)

/-- The discipline C1 asserts of a handler: the response body is parsed only
when the transport-level success indicator reports failure. -/
def parsesOnlyOnFailure {α : Type} (run : Response α → List Event × Bool) : Prop :=
  ∀ r : Response α, Event.parseBody ∈ (run r).1 → r.ok = false

/-- C1 counterexample: `deleteKey` parses the response body even when the
success indicator reports success — `await res.json()` precedes the
`res.ok` check. -/
theorem deleteKey_parses_despite_ok :
    ¬ parsesOnlyOnFailure (fun r => deleteKey domDash (FetchOutcome.success r)) := by
  intro hp
  have h := hp ⟨true, some ⟨none⟩⟩ (by simp [deleteKey, showStatus, domDash])
  simp at h

/-- C1 (amended): `setKey` parses the body exactly on failure; `deleteKey`
and `getKey` parse it unconditionally, before inspecting the indicator; on
failure with an absent or empty `detail`, `setKey` and `deleteKey` surface
"❌ Error", while `getKey` surfaces a fixed "❌ Key not found"; an
unparsable failure body aborts `setKey` with no message at all. -/
theorem keyMutator_parse_discipline (d : Dom) (hs : d.statusBox = true)
    (hg : d.getResult = true) :
    (∀ r : Response FailBody,
        Event.parseBody ∈ (setKey d (FetchOutcome.success r)).1 ↔ r.ok = false) ∧
    (∀ r : Response FailBody, Event.parseBody ∈ (deleteKey d (FetchOutcome.success r)).1) ∧
    (∀ r : Response Json, Event.parseBody ∈ (getKey d (FetchOutcome.success r)).1) ∧
    (∀ b : Option String, b = none ∨ b = some "" →
        Event.status "❌ Error" false
            ∈ (setKey d (FetchOutcome.success ⟨false, some ⟨b⟩⟩)).1 ∧
        Event.status "❌ Error" false
            ∈ (deleteKey d (FetchOutcome.success ⟨false, some ⟨b⟩⟩)).1) ∧
    (∀ b : Json, Event.status "❌ Key not found" false
        ∈ (getKey d (FetchOutcome.success ⟨false, some b⟩)).1) ∧
    ((setKey d (FetchOutcome.success ⟨false, none⟩)).2 = false ∧
      ∀ m o, Event.status m o ∉ (setKey d (FetchOutcome.success ⟨false, none⟩)).1) := by
  refine ⟨?_, ?_, ?_, ?_, ?_, rfl, ?_⟩
  · rintro ⟨ok, body⟩
    cases ok <;> cases body <;> simp [setKey, showStatus, hs]
  · rintro ⟨ok, body⟩
    cases ok <;> cases body <;> simp [deleteKey, showStatus, hs]
  · rintro ⟨ok, body⟩
    cases ok <;> cases body <;> simp [getKey, showStatus, hs, hg]
  · rintro b (rfl | rfl) <;>
      exact ⟨by simp [setKey, showStatus, hs, jsOr],
             by simp [deleteKey, showStatus, hs, jsOr]⟩
  · intro b
    simp [getKey, showStatus, hs, hg]
  · intro m o
    simp [setKey]

/-- C1 amended witness. -/
theorem keyMutator_parse_discipline_w :
    Event.parseBody ∈ (deleteKey domDash (FetchOutcome.success ⟨true, some ⟨none⟩⟩)).1 :=
  (keyMutator_parse_discipline domDash rfl rfl).2.1 ⟨true, some ⟨none⟩⟩

/-- C2 counterexample: on a network failure (`fetch` rejects) `getKey`
renders nothing — no "Key not found" placeholder and no status — although
the result area is present; the handler aborts instead. -/
theorem getKey_netError_renders_nothing :
    domDash.getResult = true ∧
    (∀ t, Event.setResultText t ∉ (getKey domDash FetchOutcome.netError).1) ∧
    (∀ m o, Event.status m o ∉ (getKey domDash FetchOutcome.netError).1) ∧
    (getKey domDash FetchOutcome.netError).2 = false := by
  refine ⟨rfl, ?_, ?_, rfl⟩ <;> intros <;> simp [getKey, domDash]

/-- C2 (amended): every failure response whose body parses as JSON yields
the identical outcome — result area "Key not found", status "❌ Key not
found" — regardless of the parsed body; but a network failure, or an
unparsable body, aborts the handler without touching either surface. -/
theorem getKey_failure_outcomes (d : Dom) (hg : d.getResult = true)
    (hs : d.statusBox = true) :
    (∀ b : Json, getKey d (FetchOutcome.success ⟨false, some b⟩) =
        ([Event.fetch "GET" ("/get/" ++ jsTrim d.getKeyField) none, Event.respond,
          Event.parseBody, Event.setResultText "Key not found",
          Event.status "❌ Key not found" false], true)) ∧
    (getKey d FetchOutcome.netError =
        ([Event.fetch "GET" ("/get/" ++ jsTrim d.getKeyField) none], false)) ∧
    (∀ ok : Bool, getKey d (FetchOutcome.success ⟨ok, none⟩) =
        ([Event.fetch "GET" ("/get/" ++ jsTrim d.getKeyField) none, Event.respond,
          Event.parseBody], false)) := by
  refine ⟨?_, ?_, ?_⟩
  · intro b
    simp [getKey, showStatus, hg, hs]
  · simp [getKey]
  · intro ok
    simp [getKey]

/-- C2 amended witness. -/
theorem getKey_failure_outcomes_w :
    getKey domDash (FetchOutcome.success ⟨false, some (Json.obj [])⟩) =
      ([Event.fetch "GET" ("/get/" ++ jsTrim domDash.getKeyField) none, Event.respond,
        Event.parseBody, Event.setResultText "Key not found",
        Event.status "❌ Key not found" false], true) :=
  (getKey_failure_outcomes domDash rfl rfl).1 (Json.obj [])

/-- The discipline C3 asserts of a mutating handler: a key-list refresh is
issued exactly when a response has arrived whose success indicator is set. -/
def refreshExactlyOnSuccess {α : Type} (run : FetchOutcome α → List Event × Bool) : Prop :=
  ∀ out, Event.refreshKeys ∈ (run out).1 ↔
    ∃ r, out = FetchOutcome.success r ∧ r.ok = true

/-- C3 counterexample: a success response whose body is unparsable makes
`deleteKey` abort at `res.json()` and issue no refresh, although the
response was received and its success indicator is set. -/
theorem deleteKey_unparsable_success_no_refresh :
    ¬ refreshExactlyOnSuccess (deleteKey domDash) := by
  intro hp
  have h := (hp (FetchOutcome.success ⟨true, none⟩)).mpr ⟨⟨true, none⟩, rfl, rfl⟩
  simp [deleteKey, domDash] at h

/-- Tests whether an event is the key-list refresh. -/
def Event.isRefreshKeys : Event → Bool
  | .refreshKeys => true
  | _ => false

/-- Any issued key-list refresh strictly follows the response arrival. -/
def respondBeforeRefresh (tr : List Event) : Prop :=
  Event.refreshKeys ∈ tr → Event.respond ∈ tr.takeWhile (fun e => ! e.isRefreshKeys)

/-- C3 (amended): the key-list refresh is issued iff a response arrived with
its success indicator set and — for `deleteKey` and `clearAll`, which parse
the body before the success check — the body parsed; it is never issued
before the response arrives and never on a failure response. -/
theorem refresh_after_judged_success (d : Dom) :
    (∀ out : FetchOutcome FailBody,
        Event.refreshKeys ∈ (setKey d out).1 ↔
          ∃ r, out = FetchOutcome.success r ∧ r.ok = true) ∧
    (∀ out : FetchOutcome FailBody,
        Event.refreshKeys ∈ (deleteKey d out).1 ↔
          ∃ r, out = FetchOutcome.success r ∧ r.ok = true ∧ r.body ≠ none) ∧
    (∀ out : FetchOutcome MsgBody,
        Event.refreshKeys ∈ (clearAll d out).1 ↔
          ∃ r, out = FetchOutcome.success r ∧ r.ok = true ∧ r.body ≠ none) ∧
    (∀ out : FetchOutcome FailBody, respondBeforeRefresh (setKey d out).1) ∧
    (∀ out : FetchOutcome FailBody, respondBeforeRefresh (deleteKey d out).1) ∧
    (∀ out : FetchOutcome MsgBody, respondBeforeRefresh (clearAll d out).1) := by
  refine ⟨?_, ?_, ?_, ?_, ?_, ?_⟩
  · rintro (_ | ⟨ok, body⟩)
    · simp [setKey]
    · cases ok <;> cases body <;> by_cases hsb : d.statusBox <;>
        simp [setKey, showStatus, hsb]
  · rintro (_ | ⟨ok, body⟩)
    · simp [deleteKey]
    · cases ok <;> cases body <;> by_cases hsb : d.statusBox <;>
        simp [deleteKey, showStatus, hsb]
  · rintro (_ | ⟨ok, body⟩)
    · simp [clearAll]
    · cases ok <;> cases body <;> by_cases hsb : d.statusBox <;>
        by_cases hgr : d.getResult <;>
        simp [clearAll, showStatus, hsb, hgr]
  · rintro (_ | ⟨ok, body⟩) hm
    · simp [setKey] at hm
    · cases ok <;> cases body <;> by_cases hsb : d.statusBox <;>
        simp [setKey, showStatus, hsb, List.takeWhile, Event.isRefreshKeys] at hm ⊢
  · rintro (_ | ⟨ok, body⟩) hm
    · simp [deleteKey] at hm
    · cases ok <;> cases body <;> by_cases hsb : d.statusBox <;>
        simp [deleteKey, showStatus, hsb, List.takeWhile, Event.isRefreshKeys] at hm ⊢
  · rintro (_ | ⟨ok, body⟩) hm
    · simp [clearAll] at hm
    · cases ok <;> cases body <;> by_cases hsb : d.statusBox <;>
        by_cases hgr : d.getResult <;>
        simp [clearAll, showStatus, hsb, hgr, List.takeWhile, Event.isRefreshKeys] at hm ⊢

/-- C5 counterexample: a failure response whose body carries the detail
string "" is reported as the generic "❌ Error", not as the detail verbatim
behind the failure marker. -/
theorem setKey_empty_detail_not_verbatim :
    Event.status "❌ " false ∉ (setKey domDash (FetchOutcome.success ⟨false, some ⟨some ""⟩⟩)).1 ∧
    Event.status "❌ Error" false
      ∈ (setKey domDash (FetchOutcome.success ⟨false, some ⟨some ""⟩⟩)).1 := by
  constructor <;> simp [setKey, showStatus, domDash, jsOr]

/-- C5 (amended): for failure responses to `setKey` and `deleteKey` whose
body parses: a non-empty `detail` string is surfaced verbatim behind the
failure marker; an absent or empty `detail` is surfaced as "❌ Error"; an
unparsable body aborts the handler with no status report at all. -/
theorem mutator_failure_detail_reporting (d : Dom) (hs : d.statusBox = true) :
    (∀ s : String, s ≠ "" →
        Event.status ("❌ " ++ s) false
            ∈ (setKey d (FetchOutcome.success ⟨false, some ⟨some s⟩⟩)).1 ∧
        Event.status ("❌ " ++ s) false
            ∈ (deleteKey d (FetchOutcome.success ⟨false, some ⟨some s⟩⟩)).1) ∧
    (∀ b : Option String, b = none ∨ b = some "" →
        Event.status "❌ Error" false
            ∈ (setKey d (FetchOutcome.success ⟨false, some ⟨b⟩⟩)).1 ∧
        Event.status "❌ Error" false
            ∈ (deleteKey d (FetchOutcome.success ⟨false, some ⟨b⟩⟩)).1) ∧
    ((setKey d (FetchOutcome.success ⟨false, none⟩)).2 = false ∧
      ∀ m o, Event.status m o ∉ (setKey d (FetchOutcome.success ⟨false, none⟩)).1) ∧
    ((deleteKey d (FetchOutcome.success ⟨false, none⟩)).2 = false ∧
      ∀ m o, Event.status m o ∉ (deleteKey d (FetchOutcome.success ⟨false, none⟩)).1) := by
  refine ⟨?_, ?_, ⟨rfl, ?_⟩, ⟨rfl, ?_⟩⟩
  · intro s hne
    exact ⟨by simp [setKey, showStatus, hs, jsOr, hne],
           by simp [deleteKey, showStatus, hs, jsOr, hne]⟩
  · rintro b (rfl | rfl) <;>
      exact ⟨by simp [setKey, showStatus, hs, jsOr],
             by simp [deleteKey, showStatus, hs, jsOr]⟩
  · intro m o
    simp [setKey]
  · intro m o
    simp [deleteKey]

/-- C5 amended witness. -/
theorem mutator_failure_detail_reporting_w :
    Event.status ("❌ " ++ "boom") false
      ∈ (setKey domDash (FetchOutcome.success ⟨false, some ⟨some "boom"⟩⟩)).1 :=
  ((mutator_failure_detail_reporting domDash rfl).1 "boom" (by decide)).1

/-- C6 counterexample: a failure response to `clearAll` with an unparsable
body produces no status report at all — the generic clear-failure message is
not surfaced; the handler aborts at `res.json()`. -/
theorem clearAll_unparsable_failure_silent :
    (∀ m o, Event.status m o ∉ (clearAll domDash (FetchOutcome.success ⟨false, none⟩)).1) ∧
    (clearAll domDash (FetchOutcome.success ⟨false, none⟩)).2 = false := by
  refine ⟨?_, rfl⟩
  intro m o
  simp [clearAll]

/-- C6 (amended): for responses whose body parses: on success `clearAll`
reports "✅ " plus the server message, refreshes the key list and blanks the
lookup result; on failure it reports the fixed "❌ Error clearing store",
into which no server detail enters; an unparsable body aborts the handler
with no report. -/
theorem clearAll_outcomes (d : Dom) (hs : d.statusBox = true)
    (hg : d.getResult = true) :
    (∀ b : MsgBody, clearAll d (FetchOutcome.success ⟨true, some b⟩) =
        ([Event.fetch "DELETE" "/clear" none, Event.respond, Event.parseBody,
          Event.status ("✅ " ++ jsStr b.message) true, Event.refreshKeys,
          Event.setResultText ""], true)) ∧
    (∀ b : MsgBody, clearAll d (FetchOutcome.success ⟨false, some b⟩) =
        ([Event.fetch "DELETE" "/clear" none, Event.respond, Event.parseBody,
          Event.status "❌ Error clearing store" false], true)) ∧
    (clearAll d (FetchOutcome.success ⟨false, none⟩) =
        ([Event.fetch "DELETE" "/clear" none, Event.respond, Event.parseBody], false)) := by
  refine ⟨?_, ?_, by simp [clearAll]⟩
  · intro b
    simp [clearAll, showStatus, hs, hg]
  · intro b
    simp [clearAll, showStatus, hs]

/-- C6 amended witness. -/
theorem clearAll_outcomes_w :
    clearAll domDash (FetchOutcome.success ⟨true, some ⟨some "Store cleared"⟩⟩) =
      ([Event.fetch "DELETE" "/clear" none, Event.respond, Event.parseBody,
        Event.status ("✅ " ++ jsStr (some "Store cleared")) true, Event.refreshKeys,
        Event.setResultText ""], true) :=
  (clearAll_outcomes domDash rfl rfl).1 ⟨some "Store cleared"⟩

/-- C7 counterexample: the entry rendered for the key " a" populates the
lookup field with " a" but performs a `get` for the trimmed key "a" — not
for that exact key. -/
theorem clickEntry_gets_trimmed_key :
    (loadKeys domDash (FetchOutcome.success ⟨true, some ⟨[" a"], 1⟩⟩)).2.1 =
      [⟨" a", " a"⟩] ∧
    (clickEntry ⟨" a", " a"⟩ domDash FetchOutcome.netError).1.getKeyField = " a" ∧
    (clickEntry ⟨" a", " a"⟩ domDash FetchOutcome.netError).2.1 =
      [Event.setLookupField " a", Event.fetch "GET" "/get/a" none] ∧
    Event.fetch "GET" "/get/ a" none ∉
      (clickEntry ⟨" a", " a"⟩ domDash FetchOutcome.netError).2.1 := by
  refine ⟨rfl, rfl, rfl, ?_⟩
  intro hm
  simp [clickEntry, getKey, domDash] at hm
  exact absurd hm (by decide)

/-- C7 (amended): for every `{keys, count}` response, the rendered list is
cleared and rebuilt to one entry per key in order, a success status embeds
the count, and activating an entry populates the lookup field with the
entry's key text and performs a `get` for the trimmed key text. -/
theorem loadKeys_rebuild_and_wiring (d : Dom) (hl : d.keysList = true)
    (hs : d.statusBox = true) :
    (∀ (ok : Bool) (ks : List String) (c : Int),
        loadKeys d (FetchOutcome.success ⟨ok, some ⟨ks, c⟩⟩) =
          ([Event.clearListRender, Event.fetch "GET" "/keys" none, Event.respond,
            Event.parseBody] ++ ks.map Event.renderKey
            ++ [Event.status ("✅ Keys loaded (" ++ toString c ++ ")") true],
           ks.map (fun k => (⟨k, k⟩ : RenderedEntry)), true)) ∧
    (∀ (k : String) (out : FetchOutcome Json),
        (clickEntry ⟨k, k⟩ d out).1.getKeyField = k ∧
        (clickEntry ⟨k, k⟩ d out).2.1.head? = some (Event.setLookupField k) ∧
        (clickEntry ⟨k, k⟩ d out).2.1.tail.head? =
          some (Event.fetch "GET" ("/get/" ++ jsTrim k) none)) := by
  constructor
  · intro ok ks c
    simp [loadKeys, showStatus, hl, hs]
  · intro k out
    refine ⟨rfl, rfl, ?_⟩
    rcases out with _ | ⟨ok, body⟩
    · simp [clickEntry, getKey]
    · cases ok <;> cases body <;> by_cases hgr : d.getResult <;>
        by_cases hsb : d.statusBox <;>
        simp [clickEntry, getKey, showStatus, hgr, hsb]

/-- C7 amended witness. -/
theorem loadKeys_rebuild_and_wiring_w :
    loadKeys domDash (FetchOutcome.success ⟨true, some ⟨["x"], 1⟩⟩) =
      ([Event.clearListRender, Event.fetch "GET" "/keys" none, Event.respond,
        Event.parseBody] ++ ["x"].map Event.renderKey
        ++ [Event.status ("✅ Keys loaded (" ++ toString (1 : Int) ++ ")") true],
       ["x"].map (fun k => (⟨k, k⟩ : RenderedEntry)), true) :=
  (loadKeys_rebuild_and_wiring domDash rfl rfl).1 true ["x"] 1

/-- C8 counterexample: a `/compact` response with an unparsable body leads
to no blocking acknowledgment and no statistics refresh — the handler
aborts at `res.json()`. -/
theorem compactWAL_unparsable_no_alert :
    (∀ m, Event.alertMsg m ∉ (compactWAL (FetchOutcome.success ⟨true, none⟩)).1) ∧
    Event.refreshStats ∉ (compactWAL (FetchOutcome.success ⟨true, none⟩)).1 ∧
    (compactWAL (FetchOutcome.success ⟨true, none⟩)).2 = false := by
  refine ⟨?_, ?_, rfl⟩ <;> intros <;> simp [compactWAL]

/-- C8 (amended): for every response whose body parses, `compactWAL`
surfaces the completion message (the server's, or the fallback) via a
blocking alert and then refreshes the statistics view; the shared status
line is never written by the operation, whatever the outcome. -/
theorem compactWAL_alert_and_stats :
    (∀ (ok : Bool) (b : MsgBody),
        compactWAL (FetchOutcome.success ⟨ok, some b⟩) =
          ([Event.fetch "POST" "/compact" none, Event.respond, Event.parseBody,
            Event.alertMsg (jsOr b.message "WAL compacted"), Event.refreshStats], true)) ∧
    (∀ out : FetchOutcome MsgBody, ∀ m o, Event.status m o ∉ (compactWAL out).1) := by
  constructor
  · intro ok b
    simp [compactWAL]
  · rintro (_ | ⟨ok, body⟩) m o
    · simp [compactWAL]
    · cases body <;> simp [compactWAL]

end PyKV
